import Mathlib

/-!
Verification of the News Ingestion & AI Synthesis Pipeline
(`src/index.ts` + the `NewsService` of `src/services/news.ts`).

The TypeScript core is shallowly embedded:
* JavaScript strings are `String`; `undefined`/`null`-able fields are `Option`.
* The HTTP fetch and the OpenAI chat-completion client are oracles passed in
  as explicit arguments (`FetchOutcome`, `LLMOracle`); a thrown exception is
  `Except.error` carrying the message.
* Logging is a side effect with no data flow and is not modelled.
-/

namespace TrueAIBuilders

/-- JavaScript `\s` for the ASCII range (space, tab, line feed, vertical tab,
form feed, carriage return) — the characters relevant to this code base. -/
def jsIsSpace (c : Char) : Bool :=
  c == ' ' || c == '\t' || c == '\n' || c == '\x0b' || c == '\x0c' || c == '\r'

/-- JavaScript `s || fallback` on strings: the empty string is falsy. -/
def jsOr (s fallback : String) : String :=
  if s = "" then fallback else s

/-- JavaScript `String.prototype.trim`: strip leading and trailing whitespace. -/
def trimJs (s : String) : String :=
  String.mk (((s.data.dropWhile jsIsSpace).reverse.dropWhile jsIsSpace).reverse)

/-- Matcher for the regex `\s*\[\d+\s*chars\]$` of
`content.replace(/\s*\[\d+\s*chars\]$/, '')`, working on the REVERSED
character list of the subject string.  Returns `some rest` (the reversed
remainder before the leftmost match ending at the string end) when the string
ends in a truncation marker, `none` otherwise. -/
def markerStripRev : List Char → Option (List Char)
  | ']' :: rest =>
    match rest with
    | 's' :: 'r' :: 'a' :: 'h' :: 'c' :: rest2 =>
      let rest3 := rest2.dropWhile jsIsSpace
      let digits := rest3.takeWhile Char.isDigit
      let rest4 := rest3.dropWhile Char.isDigit
      if digits.isEmpty then none
      else
        match rest4 with
        | '[' :: rest5 => some (rest5.dropWhile jsIsSpace)
        | _ => none
    | _ => none
  | _ => none

/-- Embedding of `content.replace(/\s*\[\d+\s*chars\]$/, '')`: strip a single trailing
truncation marker (with the whitespace run preceding it); a string not ending
in the marker is returned unchanged. -/
def replaceMarker (s : String) : String :=
  match markerStripRev s.data.reverse with
  | some rest => String.mk rest.reverse
  | none => s

/-- Does the string end in the truncation-marker pattern? -/
def endsInMarker (s : String) : Bool :=
  (markerStripRev s.data.reverse).isSome

/-! ## Data model -/

/-- A raw record of the GNews `articles` array.  The JSON schema gives no
guarantee, so every field may be absent (`undefined`/`null`). -/
structure RawArticle where
  title : Option String
  description : Option String
  content : Option String
  deriving DecidableEq, Repr

/-- The article shape produced by `scrapeNews`'s map.  The TypeScript
annotation declares all three fields as `string`, but only `content` is
defaulted in the mapping, so at runtime `title` and `description` carry
whatever the raw record held — possibly `undefined`. -/
structure Article where
  title : Option String
  description : Option String
  content : String
  deriving DecidableEq, Repr

instance : Inhabited Article := ⟨⟨none, none, ""⟩⟩

/-- Embedding of `article => (\x7b title: article.title, description: article.description,
content: (article.content || '').replace(/\s*\[\d+\s*chars\]$/, '') \x7d)`:
only `content` is defaulted (to `''`) and marker-stripped; `title` and
`description` are copied through unvalidated.  (`x || ''` on a string equals
`Option.getD · ""` because the only falsy string is `''`.) -/
def mapRaw (article : RawArticle) : Article :=
  { title := article.title
    description := article.description
    content := replaceMarker (jsOr (article.content.getD "") "") }

/-- The parsed JSON body `\x7b articles?: Array<any> \x7d` of the news API. -/
structure GNewsJson where
  articles : Option (List RawArticle)
  deriving DecidableEq, Repr

deriving instance DecidableEq for Except

/-- The `fetch` response: `ok`/`status` and the (possibly failing)
`response.json()` body. -/
structure HttpResponse where
  ok : Bool
  status : Nat
  body : Except String GNewsJson
  deriving DecidableEq, Repr

/-- Outcome of `await fetch(url)`: either a response or a thrown network
error.  The URL construction (query, key, time window) has no bearing on the
control flow inside `scrapeNews` and is absorbed into this oracle. -/
abbrev FetchOutcome := Except String HttpResponse

/-- A `role`/`content` chat message. -/
abbrev ChatMessage := String × String

/-- The request of `openai.chat.completions.create`: model, messages and
sampling temperature (in tenths, 4 = 0.4). -/
structure ChatRequest where
  model : String
  messages : List ChatMessage
  temperatureTenths : Nat
  deriving DecidableEq, Repr

/-- Message level of `choices[0]?.message?.content` of a chat completion,
with every level possibly absent. -/
structure ChatChoiceMessage where
  content : Option String
  deriving DecidableEq, Repr

structure ChatChoice where
  message : Option ChatChoiceMessage
  deriving DecidableEq, Repr

structure Completion where
  choices : List ChatChoice
  deriving DecidableEq, Repr

/-- The OpenAI client as an oracle: a chat request either yields a completion
or throws (auth failure, rate limit, network timeout, ...). -/
abbrev LLMOracle := ChatRequest → Except String Completion

/-- Record `\x7b articlesText, summaryText \x7d` returned by
`generateSummary` (the spec's `SummaryResult`, with `articlesText` as its
`sourceText`). -/
structure SummaryResult where
  articlesText : String
  summaryText : String
  deriving DecidableEq, Repr

/-! ## ArticleFetcher (`NewsService.scrapeNews`) -/

/-- Body of the `try` block of `scrapeNews`: await the fetch, throw
`HTTP error! status: ...` on a non-ok response, parse the JSON body, and map
the (possibly absent) `articles` array through `mapRaw`
(`data.articles?.map(...) || []`). -/
def scrapeNewsTry (fetched : FetchOutcome) : Except String (List Article) :=
  match fetched with
  | Except.error e => Except.error e
  | Except.ok response =>
    if !response.ok then
      Except.error ("HTTP error! status: " ++ toString response.status)
    else
      match response.body with
      | Except.error e => Except.error e
      | Except.ok data => Except.ok ((data.articles.map (List.map mapRaw)).getD [])

/-- Embedding of `scrapeNews`: the `try` block wrapped in the
`catch (error) \x7b logger.error(...); return [] \x7d` handler — every
exception is caught and the function returns an empty batch. -/
def scrapeNews (fetched : FetchOutcome) : List Article :=
  match scrapeNewsTry fetched with
  | Except.ok articles => articles
  | Except.error _ => []

/-! ## SummaryGenerator (`NewsService.generateSummary`) -/

/-- JavaScript template interpolation of a possibly-`undefined` value:
`${undefined}` renders as the string `undefined`. -/
def jsTemplateStr (o : Option String) : String :=
  o.getD "undefined"

/-- One article rendered by
`(article, index) => [${index + 1}] ${article.title}\n${article.description}\n${article.content}`. -/
def formatArticle (index : Nat) (article : Article) : String :=
  "[" ++ toString (index + 1) ++ "] " ++ jsTemplateStr article.title ++ "\n" ++
    jsTemplateStr article.description ++ "\n" ++ article.content

/-- `articles.map((article, index) => ...).join('\n\n')`. -/
def articlesTextOf (articles : List Article) : String :=
  String.intercalate "\n\n" (articles.mapIdx fun index article => formatArticle index article)

/-- The fixed `summarySystemPrompt` template literal of `generateSummary`. -/
def summarySystemPrompt : String :=
  "\n      You write a podcast-style morning blurb for SF AI builders and founders.\n\n      Audience: Experienced AI founders, senior product and engineering leaders, active investors, and community builders. They already understand baseline startup and AI concepts — skip the “101” and avoid restating obvious industry truisms (e.g., “AI is growing fast” or “niche AI startups are attracting investment”).\n\n      Input: 10 AI articles, each with title, description, and content (snippets). Some content may be truncated.\n\n      Rules:\n      - Use ONLY info present in the input. Do NOT invent names, numbers, dates, quotes, benchmarks, or features that do not appear.\n      - It’s OK to use soft qualifiers like “coverage describes” or “reports say” where the article wording is vague.\n      - Briefly identify lesser-known companies or products in one clause (e.g., “n8n, an open-source workflow automation tool”).\n      - Tone: conversational, energetic, and informed — as if two seasoned founders were catching up over coffee, not reading the news aloud.\n      - Assume the reader is deeply in the arena. Skip over-explaining terms, obvious strategy tropes, or “startup basics.” Avoid generic hypotheticals.\n      - For each major story, include at least one non-obvious, high-leverage insight — but only if it can be directly inferred from the facts provided. \n      - If the article does not provide enough detail to support a non-obvious insight, explicitly note the limitation instead of speculating (e.g., “The coverage doesn’t specify technical details, making it unclear how this compares to prior benchmarks.”).\n      - Never invent facts, numbers, names, features, timelines, or quotes that do not appear in the provided articles.\n      - Avoid negative knowledge claims like “there are no details,” “coverage doesn’t dive into specifics,” or “unknown.” Prefer omission or the narrow attribution above.\n      - Weave in at least one technical implication (e.g., iteration speed, inference efficiency, multimodal capabilities) AND one founder-facing implication (e.g., GTM timing, competitive positioning, platform dependency) for the day’s big stories.\n      - Prioritize what’s strategically or technically important over headline repetition; add brief connective tissue to explain why it matters in context.\n      - Merge related stories naturally (e.g., multiple GPT-5 articles), but surface distinct angles when they add value.\n      - No bullets, no lists, no links, no JSON — just 2–4 flowing paragraphs (220–350 words) that feel like part of an ongoing, high-context conversation.\n    "

/-- The fixed `questionsSystemPrompt` template literal of `generateQuestions`. -/
def questionsSystemPrompt : String :=
  "\n    You are a discussion architect for a community of highly engaged AI builders in San Francisco.\n\n    Audience: Experienced AI founders, senior product and engineering leaders, active investors, and community builders. They already understand baseline startup and AI concepts — skip the “101” and avoid obvious or cliché prompts.\n\n    Your goal: From a provided AI news summary and original article snippets, craft EXACTLY 2–4 short, compelling, conversation-driven questions that this audience will want to answer from their own lived experience and mission.\n\n    Tone & Style:\n    - Match the energy and voice of the morning summary — grounded, lightly energetic, and conversational.\n    - Speak as if to peers over coffee, not in a formal panel.\n    - Every question should feel worth the time of someone already building or investing at a high level.\n\n    Rules:\n    1. Ground all questions in the provided facts — no inventing names, numbers, features, or events.\n    2. Use the news as a launchpad, but quickly connect it to the reader’s own work, challenges, or product strategy.\n    3. Avoid “101” framing and irrelevant hypotheticals (e.g., “If you were Apple’s CEO…”). Keep the focus on what’s actionable or reflective for *them*.\n    4. Touch on a mix of themes when relevant — technical implications, founder strategy, market positioning, team culture, ethics, the global AI race — but don’t force quotas.\n    5. Avoid generic phrasing like “What are your thoughts?” — each question should be self-contained and spark a thoughtful, multi-dimensional response.\n    "

/-- The chat request `generateSummary` sends: model gpt-4o, system prompt plus
the formatted articles as the user turn, temperature 0.4. -/
def summaryRequest (articles : List Article) : ChatRequest :=
  { model := "gpt-4o"
    messages := [("system", summarySystemPrompt), ("user", articlesTextOf articles)]
    temperatureTenths := 4 }

/-- Extraction `choices[0]?.message?.content` as an optional chain. -/
def contentOf (completion : Completion) : Option String :=
  match completion.choices.head? with
  | none => none
  | some choice =>
    match choice.message with
    | none => none
    | some message => message.content

/-- Embedding of `choices[0]?.message?.content?.trim() || ''`, shared by both
generators. -/
def extractText (completion : Completion) : String :=
  match (contentOf completion).map trimJs with
  | none => ""
  | some s => jsOr s ""

/-- Embedding of `generateSummary`: format the batch, make one chat-completion
call, and return `\x7b articlesText, summaryText \x7d`.  An exception of the
client is not caught here (it propagates as `Except.error`). -/
def generateSummary (llm : LLMOracle) (articles : List Article) :
    Except String SummaryResult :=
  match llm (summaryRequest articles) with
  | Except.error e => Except.error e
  | Except.ok completion =>
    Except.ok { articlesText := articlesTextOf articles, summaryText := extractText completion }

/-! ## QuestionGenerator (`NewsService.generateQuestions`) -/

/-- The `questionsUserPrompt` template literal: original articles and summary
threaded through from the `SummaryResult`. -/
def questionsUserPrompt (summary : SummaryResult) : String :=
  "\n    Original articles: " ++ summary.articlesText ++ "\n    Summary: " ++
    summary.summaryText ++ "\n    "

/-- The chat request `generateQuestions` sends: model gpt-4o, system prompt
plus the threaded user prompt, temperature 0.5. -/
def questionsRequest (summary : SummaryResult) : ChatRequest :=
  { model := "gpt-4o"
    messages := [("system", questionsSystemPrompt), ("user", questionsUserPrompt summary)]
    temperatureTenths := 5 }

/-- Embedding of `generateQuestions`: one chat-completion call on the threaded
summary record, returning the trimmed text.  Client exceptions propagate. -/
def generateQuestions (llm : LLMOracle) (summary : SummaryResult) :
    Except String String :=
  match llm (questionsRequest summary) with
  | Except.error e => Except.error e
  | Except.ok completion => Except.ok (extractText completion)

/-! ## PipelineOrchestrator (`main` of `src/index.ts`) -/

/-- Observables of a completed run: the two generated texts, the composed
`output` template literal that `main` logs, and — as instrumentation — the
list of chat requests the run issued (readable off the call sequence of
`main`: one `generateSummary` call then one `generateQuestions` call). -/
structure RunResult where
  summaryText : String
  questionsText : String
  output : String
  requests : List ChatRequest
  deriving DecidableEq, Repr

/-- Body of the `try` block of `main`: scrape, summarize, generate questions,
compose the output template literal.  Note that the summary and question
stages are invoked unconditionally — there is no empty-batch short-circuit. -/
def main (fetched : FetchOutcome) (llm : LLMOracle) : Except String RunResult :=
  let articles := scrapeNews fetched
  match generateSummary llm articles with
  | Except.error e => Except.error e
  | Except.ok summary =>
    match generateQuestions llm summary with
    | Except.error e => Except.error e
    | Except.ok questions =>
      Except.ok
        { summaryText := summary.summaryText
          questionsText := questions
          output := "\n    " ++ summary.summaryText ++ "\n\n    " ++ questions ++ "\n    "
          requests := [summaryRequest articles, questionsRequest summary] }

/-- The process exit code of `main`: the `catch` handler logs the error and
calls `process.exit(1)`; a run that completes exits normally. -/
def mainExitCode (fetched : FetchOutcome) (llm : LLMOracle) : Nat :=
  match main fetched llm with
  | Except.ok _ => 0
  | Except.error _ => 1

/-! ## Concrete fixtures for witnesses and counterexamples -/

/-- An HTTP response with a non-success 500 status. -/
def response500 : HttpResponse :=
  { ok := false, status := 500, body := Except.error "body never read" }

/-- A fetch outcome whose HTTP status is a non-success 500. -/
def fetchBad : FetchOutcome :=
  Except.ok response500

/-- A fetch outcome delivering two well-formed articles. -/
def fetchTwo : FetchOutcome :=
  Except.ok
    { ok := true
      status := 200
      body := Except.ok
        { articles := some
            [ { title := some "OpenAI ships X", description := some "desc one"
                content := some "content one[99 chars]" }
            , { title := some "Startup Y raises Z", description := some "desc two"
                content := some "content two" } ] } }

/-- A completion whose first choice carries the content `"hello"`. -/
def respHello : Completion :=
  { choices := [{ message := some { content := some "hello" } }] }

/-- A completion with no content on its first choice. -/
def respEmpty : Completion :=
  { choices := [{ message := some { content := none } }] }

/-- A deterministic model stub answering every request with `respHello`. -/
def llmHello : LLMOracle := fun _ => Except.ok respHello

/-- A second stub built from a separate copy of the same completion. -/
def llmHello2 : LLMOracle :=
  fun _ => Except.ok { choices := [{ message := some { content := some "hello" } }] }

/-- A model stub that always throws. -/
def llmThrow : LLMOracle := fun _ => Except.error "rate limited"

/-! ## Helper lemmas -/

/-- Index-aware map as a plain map over the index range. -/
theorem mapIdx_eq_range_map {α β : Type} (d : α) :
    ∀ (l : List α) (f : Nat → α → β),
      l.mapIdx f = (List.range l.length).map fun i => f i (l.getD i d)
  | [], _ => rfl
  | a :: l, f => by
    rw [List.mapIdx_cons, List.length_cons, List.range_succ_eq_map,
      List.map_cons, List.map_map, mapIdx_eq_range_map d l fun i x => f (i + 1) x]
    simp [Function.comp]

/-- Unfolding of `main` in terms of the two chat-completion calls it makes. -/
theorem main_eq (fetched : FetchOutcome) (llm : LLMOracle) :
    main fetched llm =
      match llm (summaryRequest (scrapeNews fetched)) with
      | Except.error e => Except.error e
      | Except.ok c =>
        match llm (questionsRequest
            { articlesText := articlesTextOf (scrapeNews fetched)
              summaryText := extractText c }) with
        | Except.error e => Except.error e
        | Except.ok c2 =>
          Except.ok
            { summaryText := extractText c
              questionsText := extractText c2
              output := "\n    " ++ extractText c ++ "\n\n    " ++ extractText c2 ++ "\n    "
              requests := [summaryRequest (scrapeNews fetched),
                questionsRequest
                  { articlesText := articlesTextOf (scrapeNews fetched)
                    summaryText := extractText c }] } := by
  cases h1 : llm (summaryRequest (scrapeNews fetched)) with
  | error e => simp only [main, generateSummary, generateQuestions, h1]
  | ok c =>
    cases h2 : llm (questionsRequest
        { articlesText := articlesTextOf (scrapeNews fetched)
          summaryText := extractText c }) with
    | error e => simp only [main, generateSummary, generateQuestions, h1, h2]
    | ok c2 => simp only [main, generateSummary, generateQuestions, h1, h2]

/-! ## Claims -/

/-- C4, counterexample: the marker strip is not idempotent — on a string
ending in two stacked truncation markers a single `replace` removes only the
last marker, and a second application removes another one. -/
theorem c4_counterexample :
    replaceMarker "x[1 chars][2 chars]" = "x[1 chars]" ∧
    replaceMarker (replaceMarker "x[1 chars][2 chars]") ≠
      replaceMarker "x[1 chars][2 chars]" := by
  decide

/-- C4, amended: the normalization maps `"Some text[42 chars]"` to
`"Some text"` and leaves every string not ending in a truncation marker
unchanged; it is idempotent on every string whose normalization does not
itself still end in a truncation marker (but not in general). -/
theorem c4_amended :
    replaceMarker "Some text[42 chars]" = "Some text" ∧
    (∀ s, endsInMarker s = false → replaceMarker s = s) ∧
    (∀ s, endsInMarker (replaceMarker s) = false →
      replaceMarker (replaceMarker s) = replaceMarker s) := by
  have h2 : ∀ s, endsInMarker s = false → replaceMarker s = s := by
    intro s h
    unfold endsInMarker at h
    unfold replaceMarker
    cases hm : markerStripRev s.data.reverse with
    | none => rfl
    | some rest => rw [hm] at h; simp at h
  exact ⟨by decide, h2, fun s h => h2 (replaceMarker s) h⟩

/-- C4, witness for the amended claim at concrete inputs. -/
theorem c4_amended_witness :
    replaceMarker "no marker" = "no marker" ∧
    replaceMarker (replaceMarker "Some text[42 chars]") =
      replaceMarker "Some text[42 chars]" :=
  ⟨c4_amended.2.1 "no marker" (by decide),
   c4_amended.2.2 "Some text[42 chars]" (by decide)⟩

/-- C5: for every batch (given as title/description/content triples,
matching the spec's string-typed Article shape), the prompt formatting
renders the i-th article as `[i+1] title\ndescription\ncontent` — 1-based
index matching arrival order — and joins the articles with a blank line,
preserving the batch's order. -/
theorem c5_format_preserves_order_and_indexing
    (ts : List (String × String × String)) :
    articlesTextOf
        (ts.map fun t => { title := some t.1, description := some t.2.1, content := t.2.2 }) =
      String.intercalate "\n\n" ((List.range ts.length).map fun i =>
        "[" ++ toString (i + 1) ++ "] " ++ (ts.getD i ("", "", "")).1 ++ "\n" ++
          (ts.getD i ("", "", "")).2.1 ++ "\n" ++ (ts.getD i ("", "", "")).2.2) := by
  unfold articlesTextOf
  rw [mapIdx_eq_range_map ({ title := some "", description := some "", content := "" } : Article)]
  simp only [List.length_map]
  congr 1
  refine List.map_congr_left ?_
  intro i hi
  rw [List.mem_range] at hi
  have hget : (ts.map fun t =>
      ({ title := some t.1, description := some t.2.1, content := t.2.2 } : Article)).getD i
        { title := some "", description := some "", content := "" } =
      { title := some (ts.getD i ("", "", "")).1,
        description := some (ts.getD i ("", "", "")).2.1,
        content := (ts.getD i ("", "", "")).2.2 } := by
    rw [List.getD_eq_getElem?_getD, List.getElem?_map, List.getD_eq_getElem?_getD]
    cases hx : ts[i]? with
    | none => rw [List.getElem?_eq_none_iff] at hx; omega
    | some t => rfl
  rw [hget]
  rfl

/-- C1, counterexample: on a run whose fetch stage yields an empty batch
(here: HTTP 500, hence empty batch) the pipeline still issues two LLM chat
requests — the summary generator IS invoked — and the final `summaryText`
equals whatever the model returned (`"hello"`), not the empty string. -/
theorem c1_counterexample :
    scrapeNews fetchBad = [] ∧
    (main fetchBad llmHello).map (fun r => (r.summaryText, r.requests.length)) =
      Except.ok ("hello", 2) ∧
    ("hello" : String) ≠ "" := by
  decide

/-- C1, amended: on a run whose fetch stage yields an empty batch, the
summary generator is still invoked — the run issues the summary chat request
with an EMPTY user turn, then the questions chat request — and the final
`summaryText` and `questionsText` equal whatever the model returns for those
calls (not necessarily empty). -/
theorem c1_amended (fetched : FetchOutcome) (llm : LLMOracle) (resp : Completion)
    (hbatch : scrapeNews fetched = [])
    (hllm : ∀ q, llm q = Except.ok resp) :
    main fetched llm = Except.ok
      { summaryText := extractText resp
        questionsText := extractText resp
        output := "\n    " ++ extractText resp ++ "\n\n    " ++ extractText resp ++ "\n    "
        requests := [summaryRequest [],
          questionsRequest { articlesText := "", summaryText := extractText resp }] } ∧
    (summaryRequest []).messages = [("system", summarySystemPrompt), ("user", "")] := by
  refine ⟨?_, rfl⟩
  rw [main_eq, hbatch]
  simp only [hllm]
  rfl

/-- C1, witness for the amended claim: concrete empty-batch run against the
constant `"hello"` model stub. -/
theorem c1_amended_witness :
    main fetchBad llmHello = Except.ok
      { summaryText := "hello"
        questionsText := "hello"
        output := "\n    hello\n\n    hello\n    "
        requests := [summaryRequest [],
          questionsRequest { articlesText := "", summaryText := "hello" }] } ∧
    (summaryRequest []).messages = [("system", summarySystemPrompt), ("user", "")] :=
  c1_amended fetchBad llmHello respHello (by decide) (fun _ => rfl)

/-- C2: on a run with a non-empty batch, if either LLM call throws, `main`
propagates exactly that error (no partial result is produced) and the process
exits with code 1. -/
theorem c2_generation_error_aborts_run (fetched : FetchOutcome) (llm : LLMOracle)
    (e : String) (_hne : scrapeNews fetched ≠ []) :
    (llm (summaryRequest (scrapeNews fetched)) = Except.error e →
      main fetched llm = Except.error e ∧ mainExitCode fetched llm = 1) ∧
    (∀ resp, llm (summaryRequest (scrapeNews fetched)) = Except.ok resp →
      llm (questionsRequest
          { articlesText := articlesTextOf (scrapeNews fetched)
            summaryText := extractText resp }) = Except.error e →
      main fetched llm = Except.error e ∧ mainExitCode fetched llm = 1) := by
  constructor
  · intro h
    have hm : main fetched llm = Except.error e := by rw [main_eq, h]
    exact ⟨hm, by unfold mainExitCode; rw [hm]⟩
  · intro resp h1 h2
    have hm : main fetched llm = Except.error e := by rw [main_eq, h1]; simp only [h2]
    exact ⟨hm, by unfold mainExitCode; rw [hm]⟩

/-- C2, witness: a two-article fetch with a throwing model stub — the run is
rejected with the thrown error and exit code 1. -/
theorem c2_generation_error_aborts_run_witness :
    main fetchTwo llmThrow = Except.error "rate limited" ∧
    mainExitCode fetchTwo llmThrow = 1 :=
  (c2_generation_error_aborts_run fetchTwo llmThrow "rate limited" (by decide)).1 rfl

/-- C3: a non-success HTTP status makes `scrapeNews` return an empty batch
rather than raising, and the pipeline then completes successfully (with a
working model client). -/
theorem c3_non_success_status_gives_empty_batch (response : HttpResponse)
    (llm : LLMOracle) (resp : Completion)
    (hok : response.ok = false) (hllm : ∀ q, llm q = Except.ok resp) :
    scrapeNews (Except.ok response) = [] ∧
    ∃ r, main (Except.ok response) llm = Except.ok r := by
  have hempty : scrapeNews (Except.ok response) = [] := by
    unfold scrapeNews scrapeNewsTry
    cases response with
    | mk ok status body => simp only at hok; rw [hok]; rfl
  refine ⟨hempty, ?_⟩
  rw [main_eq, hempty]
  simp only [hllm]
  exact ⟨_, rfl⟩

/-- C3, witness: the concrete 500-status response — empty batch and a
completed run against the constant model stub. -/
theorem c3_non_success_status_gives_empty_batch_witness :
    scrapeNews (Except.ok response500) = [] ∧
    ∃ r, main (Except.ok response500) llmHello = Except.ok r :=
  c3_non_success_status_gives_empty_batch response500 llmHello respHello rfl (fun _ => rfl)

/-- C6: with a completion stub, both generators return the trimmed completion
text and never throw from that branch — the empty string when
`choices[0]?.message?.content` is absent, the trimmed content when present. -/
theorem c6_missing_content_yields_empty_string (batch : List Article)
    (s : SummaryResult) (resp : Completion) :
    generateSummary (fun _ => Except.ok resp) batch =
      Except.ok { articlesText := articlesTextOf batch, summaryText := extractText resp } ∧
    generateQuestions (fun _ => Except.ok resp) s = Except.ok (extractText resp) ∧
    (contentOf resp = none → extractText resp = "") ∧
    (∀ t, contentOf resp = some t → extractText resp = trimJs t) := by
  refine ⟨rfl, rfl, ?_, ?_⟩
  · intro h
    unfold extractText
    rw [h]
    rfl
  · intro t h
    unfold extractText
    rw [h]
    show jsOr (trimJs t) "" = trimJs t
    unfold jsOr
    split
    · next heq => rw [heq]
    · rfl

/-- C6, witness: the generators at the concrete no-content and
`"hello"`-content completions. -/
theorem c6_missing_content_yields_empty_string_witness :
    extractText respEmpty = "" ∧ extractText respHello = trimJs "hello" :=
  ⟨(c6_missing_content_yields_empty_string [] ⟨"", ""⟩ respEmpty).2.2.1 rfl,
   (c6_missing_content_yields_empty_string [] ⟨"", ""⟩ respHello).2.2.2 "hello" rfl⟩

/-- C7: `generateSummary` returns the formatted article text it sent as the
user message as the `articlesText` (sourceText) field, and the question
stage's user prompt contains that very text, threaded through. -/
theorem c7_source_text_threaded (batch : List Article) (llm : LLMOracle)
    (resp : Completion) (h : llm (summaryRequest batch) = Except.ok resp) :
    ∃ s, generateSummary llm batch = Except.ok s ∧
      s.articlesText = articlesTextOf batch ∧
      (summaryRequest batch).messages =
        [("system", summarySystemPrompt), ("user", s.articlesText)] ∧
      ∃ pre post, (questionsRequest s).messages =
        [("system", questionsSystemPrompt), ("user", pre ++ s.articlesText ++ post)] := by
  refine ⟨{ articlesText := articlesTextOf batch, summaryText := extractText resp }, ?_,
    rfl, rfl, "\n    Original articles: ", "\n    Summary: " ++ extractText resp ++ "\n    ", ?_⟩
  · unfold generateSummary
    rw [h]
  · simp [questionsRequest, questionsUserPrompt, String.append_assoc]

/-- C7, witness: concrete two-article batch against the constant stub. -/
theorem c7_source_text_threaded_witness :
    ∃ s, generateSummary llmHello (scrapeNews fetchTwo) = Except.ok s ∧
      s.articlesText = articlesTextOf (scrapeNews fetchTwo) ∧
      (summaryRequest (scrapeNews fetchTwo)).messages =
        [("system", summarySystemPrompt), ("user", s.articlesText)] ∧
      ∃ pre post, (questionsRequest s).messages =
        [("system", questionsSystemPrompt), ("user", pre ++ s.articlesText ++ post)] :=
  c7_source_text_threaded (scrapeNews fetchTwo) llmHello respHello rfl

/-- C8: `generateQuestions` is a deterministic function of the summary record
and the model stub's answer to the single chat request it issues — two
invocations whose stubs agree on that request agree on the result. -/
theorem c8_question_generation_deterministic (llm1 llm2 : LLMOracle)
    (s : SummaryResult)
    (h : llm1 (questionsRequest s) = llm2 (questionsRequest s)) :
    generateQuestions llm1 s = generateQuestions llm2 s := by
  unfold generateQuestions
  rw [h]

/-- C8, witness: two separately built copies of the same deterministic stub
give the same questions result. -/
theorem c8_question_generation_deterministic_witness :
    generateQuestions llmHello { articlesText := "src", summaryText := "sum" } =
      generateQuestions llmHello2 { articlesText := "src", summaryText := "sum" } :=
  c8_question_generation_deterministic llmHello llmHello2
    { articlesText := "src", summaryText := "sum" } rfl

/-- C9: `scrapeNews` propagates no exception — whenever its `try` body throws
(network failure, non-2xx status, JSON parse failure, or anything else), the
handler catches it and the function returns the empty batch. -/
theorem c9_scrape_never_throws (fetched : FetchOutcome) (e msg : String)
    (response : HttpResponse) :
    (scrapeNewsTry fetched = Except.error e → scrapeNews fetched = []) ∧
    scrapeNews (Except.error msg) = [] ∧
    (response.ok = false → scrapeNews (Except.ok response) = []) ∧
    (response.ok = true → response.body = Except.error msg →
      scrapeNews (Except.ok response) = []) := by
  refine ⟨?_, rfl, ?_, ?_⟩
  · intro h
    unfold scrapeNews
    rw [h]
  · intro h
    simp [scrapeNews, scrapeNewsTry, h]
  · intro hok hbody
    simp [scrapeNews, scrapeNewsTry, hok, hbody]

/-- C9, witness: concrete network-error, 500-status, and bad-JSON fetches all
yield the empty batch. -/
theorem c9_scrape_never_throws_witness :
    scrapeNews (Except.error "ECONNREFUSED") = [] ∧
    scrapeNews (Except.ok response500) = [] ∧
    scrapeNews (Except.ok { ok := true, status := 200, body := Except.error "bad json" }) = [] :=
  ⟨(c9_scrape_never_throws (Except.error "ECONNREFUSED") "x" "ECONNREFUSED" response500).2.1,
   (c9_scrape_never_throws (Except.ok response500) "x" "y" response500).2.2.1 rfl,
   (c9_scrape_never_throws (Except.ok { ok := true, status := 200, body := Except.error "bad json" })
      "x" "bad json" { ok := true, status := 200, body := Except.error "bad json" }).2.2.2 rfl rfl⟩

/-- C10: in the raw-record mapping only `content` is defaulted — an absent,
null or empty `content` maps (after marker stripping) to the empty string,
while `title` and `description` are copied through unchanged and may remain
absent. -/
theorem c10_only_content_defaulted (raw : RawArticle) :
    (mapRaw raw).title = raw.title ∧
    (mapRaw raw).description = raw.description ∧
    (mapRaw raw).content = replaceMarker (jsOr (raw.content.getD "") "") ∧
    (raw.content = none → (mapRaw raw).content = "") ∧
    (raw.content = some "" → (mapRaw raw).content = "") := by
  refine ⟨rfl, rfl, rfl, ?_, ?_⟩ <;> intro h <;> unfold mapRaw <;> rw [h] <;> rfl

/-- C10, witness: the fully absent raw record keeps `title` and `description`
absent and gets the empty `content`. -/
theorem c10_only_content_defaulted_witness :
    (mapRaw { title := none, description := none, content := none }).title = none ∧
    (mapRaw { title := none, description := none, content := none }).content = "" :=
  ⟨(c10_only_content_defaulted { title := none, description := none, content := none }).1,
   (c10_only_content_defaulted { title := none, description := none, content := none }).2.2.2.1 rfl⟩

end TrueAIBuilders
